import Mathlib

/-!
Verification of the FSLP protocol layer of the flir_boson kernel module.

The repository contains two live variants of the protocol engine:
  * the "SDK compliant" layer (file `part_000` of the sources, used by the
    v4l2 core in `part_002`/`part_003`): `flir_fslp_send_frame`,
    `flir_fslp_read_frame`, `flir_command_dispatcher` returning `FLR_RESULT`
    codes, and the packagers `flir_boson_send_int_cmd` /
    `flir_boson_get_int_val`.  Embedded below in namespace `SDK`.
  * the layer in `flir_boson_v4l2/flir-boson-fslp.c`: same structure but the
    dispatcher returns Linux errno codes, only reads a response when the
    caller supplies a positive expected length, and the packagers
    `flir_boson_set_mipi_state` / `flir_boson_get_mipi_state` sit on top.
    Embedded below in namespace `V4L2`.

The byte transport (I2C) is modelled as a byte stream: a `List Nat` of the
bytes the camera will deliver, in order.  A read of `n` bytes consumes `n`
bytes from the front of the stream and fails (like a failed `i2c_transfer`,
which returns `-EIO`) when fewer than `n` bytes remain.  All buffers in the C
code hold `u8` values, so stream entries stand for numbers `0 ≤ b ≤ 255`;
the serializers below only ever produce such values.  Machine arithmetic is
modelled on `Nat` with explicit `% 2^32` where the C code relies on `u32`
wrap-around.
-/

/-! ## Result codes (ReturnCodes.h) and errno values -/

def R_SUCCESS : Nat := 0
def R_SDK_PKG_BUFFER_OVERFLOW : Nat := 303
def R_SDK_DSPCH_SEQUENCE_MISMATCH : Nat := 305
def R_SDK_DSPCH_ID_MISMATCH : Nat := 306
def R_CAM_API_INVALID_INPUT : Nat := 385
def R_CAM_PKG_BUFFER_OVERFLOW : Nat := 383
def FLR_NOT_READY : Nat := 514
def FLR_RANGE_ERROR : Nat := 515
def FLR_BAD_ARG_POINTER_ERROR : Nat := 517
def FLR_DATA_SIZE_ERROR : Nat := 518
def FLR_COMM_PORT_NOT_OPEN : Nat := 613
def FLR_COMM_NO_DEV : Nat := 620
def FLR_COMM_TIMEOUT_ERROR : Nat := 621
def FLR_COMM_ERROR_WRITING_COMM : Nat := 621
def FLR_COMM_ERROR_READING_COMM : Nat := 622

/- Linux errno values appear below as negative integer literals:
   -5 = -EIO, -16 = -EBUSY, -22 = -EINVAL, -71 = -EPROTO, -121 = -EREMOTEIO. -/

def FLIR_MAGIC_TOKEN_0 : Nat := 0x8E
def FLIR_MAGIC_TOKEN_1 : Nat := 0xA1
def FLIR_FSLP_MAX_DATA : Nat := 256

def DVO_SET_MIPI_STATE : Nat := 0x00060024
def DVO_GET_MIPI_STATE : Nat := 0x00060026

/-! ## Byte serializers (Serializer_BuiltIn.c copies in the driver)

`UINT32_ToBytes` writes a `u32` big-endian; the C shifts-and-mask
`(u8)(v >> 24 & 0xff)` on a `u32` equal the `Nat` expressions
`v / 2^k % 256` used here.  `byteToUINT32` reads four `u8` values
big-endian; on bytes (values < 256) `(b0<<24)|(b1<<16)|(b2<<8)|b3`
equals the sum below.  A missing byte reads as 0. -/

def UINT32_ToBytes (v : Nat) : List Nat :=
  [v / 16777216 % 256, v / 65536 % 256, v / 256 % 256, v % 256]

def byteToUINT32 (l : List Nat) : Nat :=
  l.getD 0 0 * 16777216 + l.getD 1 0 * 65536 + l.getD 2 0 * 256 + l.getD 3 0

/-- Wire image of one FSLP frame around payload `p`: the two magic tokens,
the big-endian `u16` payload length, then the payload bytes.  This is the
buffer both `flir_fslp_send_frame` variants transmit (`length <= 256` there),
and the byte sequence a camera response frame occupies on the stream
(`length < 65536`, the `u16` range). -/
def frameBytes (p : List Nat) : List Nat :=
  0x8E :: 0xA1 :: (p.length / 256 % 256) :: (p.length % 256) :: p

namespace SDK

/-- Frame encoder of the SDK-compliant layer (`flir_fslp_send_frame` in
`part_000`): rejects payloads over `FLIR_FSLP_MAX_DATA` (256) bytes with
`-EINVAL`, otherwise returns the frame bytes handed to the I2C write. -/
def flir_fslp_send_frame (payload : List Nat) : Except Int (List Nat) :=
  if payload.length > FLIR_FSLP_MAX_DATA then .error (-22)
  else .ok (frameBytes payload)

/-- Frame reader of the SDK-compliant layer (`flir_fslp_read_frame` in
`part_000`) over a byte stream.  The C code reads `header[0]` and
`header[1]` with two one-byte transfers, then tests
`if (ret || header[1] != FLIR_MAGIC_TOKEN_1) return ret;` — so when the
transfers succeed but the second byte is not 0xA1 it returns `ret = 0`,
i.e. success, without reading the length or any payload (and `header[0]`
is never compared against 0x8E at all).  On the success paths it reads the
two length bytes, takes the declared big-endian length as authoritative
(only a warning is logged when it differs from `expected_len`), and reads
that many payload bytes.  Returns the payload and the remaining stream. -/
def flir_fslp_read_frame (s : List Nat) (expected_len : Nat) :
    Except Int (List Nat × List Nat) :=
  match s with
  | _h0 :: h1 :: t =>
    if h1 ≠ FLIR_MAGIC_TOKEN_1 then .ok ([], t)
    else
      match t with
      | h2 :: h3 :: t2 =>
        let payload_len := h2 * 256 + h3
        if t2.length < payload_len then .error (-5)
        else .ok (t2.take payload_len, t2.drop payload_len)
      | _ => .error (-5)
  | _ => .error (-5)

/-- RX-buffer flush loop at the top of `flir_command_dispatcher` in
`part_000`: 4-byte reads are issued until one returns `0xFFFFFFFF` (the
camera's empty-buffer marker, four 0xFF bytes in either endianness) or a
read fails.  Returns the stream after the marker, or `none` on a read
failure (fewer than 4 bytes left). -/
def flush_rx : List Nat → Option (List Nat)
  | b0 :: b1 :: b2 :: b3 :: rest =>
    if b0 = 0xFF ∧ b1 = 0xFF ∧ b2 = 0xFF ∧ b3 = 0xFF then some rest
    else flush_rx rest
  | _ => none

/-- Outcome of one iteration of the dispatcher's response-read loop. -/
inductive AttemptRes where
  /-- `flir_fslp_read_frame` returned an error: fatal, never retried. -/
  | ioFail
  /-- A retryable condition, carrying the `FLR_RESULT` the dispatcher
  returns when it strikes on the second (last) iteration:
  `FLR_COMM_ERROR_READING_COMM` (622) for the short-response branch,
  `R_SDK_DSPCH_SEQUENCE_MISMATCH` (305) for an echoed sequence differing
  from the one sent. -/
  | again (code : Nat) (rest : List Nat)
  /-- Sequence matched: the loop breaks with this response payload. -/
  | good (payload : List Nat) (rest : List Nat)
deriving Repr, DecidableEq

/-- One iteration of the response-read retry loop of
`flir_command_dispatcher` (`part_000`): read a frame, then test
`expected_resp_len < 12` (the C compares the locally computed expected
length, not the bytes actually read, so this branch never fires for
`expected_resp_len = receive_bytes + 12`), then compare the echoed
sequence number (first 4 payload bytes, big-endian) with `seq_num`. -/
def dispatch_attempt (seq_num expected_resp_len : Nat) (s : List Nat) : AttemptRes :=
  match flir_fslp_read_frame s expected_resp_len with
  | .error _ => .ioFail
  | .ok (payload, rest) =>
    if expected_resp_len < 12 then .again FLR_COMM_ERROR_READING_COMM rest
    else if byteToUINT32 payload ≠ seq_num then .again R_SDK_DSPCH_SEQUENCE_MISMATCH rest
    else .good payload rest

/-- Result of the whole `for (retry = 0; retry < 2; retry++)` loop:
either a failure code, or the accepted response payload; `reads` counts
how many times `flir_fslp_read_frame` was invoked. -/
inductive ReadPhaseRes where
  | fail (code : Nat) (reads : Nat)
  | ok (payload : List Nat) (reads : Nat) (rest : List Nat)
deriving Repr, DecidableEq

/-- The dispatcher's retry loop, unrolled to its two iterations.  A failed
frame read maps to `FLR_COMM_ERROR_READING_COMM` at once; a retryable
condition on the first iteration `continue`s into a second and only
iteration, whose retryable condition is final. -/
def dispatch_read_retry (seq_num expected_resp_len : Nat) (s : List Nat) : ReadPhaseRes :=
  match dispatch_attempt seq_num expected_resp_len s with
  | .ioFail => .fail FLR_COMM_ERROR_READING_COMM 1
  | .good payload rest => .ok payload 1 rest
  | .again _ rest1 =>
    match dispatch_attempt seq_num expected_resp_len rest1 with
    | .ioFail => .fail FLR_COMM_ERROR_READING_COMM 2
    | .good payload rest => .ok payload 2 rest
    | .again code _ => .fail code 2

/-- Observable outcome of one `flir_command_dispatcher` call (`part_000`):
the `FLR_RESULT` value returned, the number of `flir_fslp_read_frame`
attempts made in the retry loop, and the bytes copied to `receive_data`. -/
structure DispatchOut where
  result : Nat
  frame_reads : Nat
  receive_data : List Nat
deriving Repr, DecidableEq

/-- Command dispatcher of the SDK-compliant layer
(`flir_command_dispatcher` in `part_000`).  Steps, exactly as in the C:
flush the RX buffer; build the payload `seq ++ fn ++ 0xFFFFFFFF ++ data`
(12-byte header, each field big-endian); send it framed
(`flir_fslp_send_frame` fails when the payload exceeds 256 bytes, and the
I2C write itself can fail — `write_ok = false`; both surface as
`FLR_COMM_ERROR_WRITING_COMM`); sleep (`sleep_ms`, not modelled); then read
`*receive_bytes + 12` bytes of response with the one-retry loop, and
validate command id (offset 4) and status (offset 8) of the accepted
payload.  A non-zero status is returned verbatim as the `FLR_RESULT`.
On success the bytes after the 12-byte header are copied out
(`*receive_bytes` of them); the C never updates `*receive_bytes`. -/
def flir_command_dispatcher (seq_num fn_id : Nat) (send_data : List Nat)
    (receive_bytes : Nat) (write_ok : Bool) (s : List Nat) : DispatchOut :=
  match flush_rx s with
  | none => ⟨FLR_COMM_ERROR_READING_COMM, 0, []⟩
  | some s1 =>
    let command_payload :=
      UINT32_ToBytes seq_num ++ UINT32_ToBytes fn_id ++
        UINT32_ToBytes 0xFFFFFFFF ++ send_data
    if command_payload.length > FLIR_FSLP_MAX_DATA ∨ write_ok = false then
      ⟨FLR_COMM_ERROR_WRITING_COMM, 0, []⟩
    else
      let expected_resp_len := receive_bytes + 12
      match dispatch_read_retry seq_num expected_resp_len s1 with
      | .fail code n => ⟨code, n, []⟩
      | .ok payload n _ =>
        if byteToUINT32 (payload.drop 4) ≠ fn_id then
          ⟨R_SDK_DSPCH_ID_MISMATCH, n, []⟩
        else if byteToUINT32 (payload.drop 8) ≠ R_SUCCESS then
          ⟨byteToUINT32 (payload.drop 8), n, []⟩
        else
          ⟨R_SUCCESS, n, (payload.drop 12).take receive_bytes⟩

/-- Observable outcome of a packager call: the `FLR_RESULT`, the sequence
counter after the call, and the sequence number the call used. -/
structure PkgOut where
  result : Nat
  command_count : Nat
  seq_used : Nat
deriving Repr, DecidableEq

/-- Packager `flir_boson_send_int_cmd` (`part_000`): allocates
`seq_num = ++sensor->command_count` (pre-increment on a `u32`, so wrapping
at `2^32`), serializes `val` big-endian as the 4-byte command body, and
dispatches with `receive_bytes = 0`.  `delay_ms` only feeds the sleep and
is not modelled. -/
def flir_boson_send_int_cmd (command_count cmd val delay_ms : Nat)
    (write_ok : Bool) (s : List Nat) : PkgOut :=
  let seq_num := (command_count + 1) % 4294967296
  let d := flir_command_dispatcher seq_num cmd (UINT32_ToBytes val) 0 write_ok s
  ⟨d.result, seq_num, seq_num⟩

/-- Packager `flir_boson_get_int_val` (`part_000`): empty command body,
`receive_bytes = 4`; the caller's `val` (value `val0` before the call) is
overwritten with the big-endian decode of the response data only when the
dispatcher returned `R_SUCCESS` and `receive_bytes >= 4` (the dispatcher
never updates `receive_bytes`, so the latter always holds).  Returns
(result, new counter, the `val` variable after the call). -/
def flir_boson_get_int_val (command_count cmd val0 : Nat)
    (write_ok : Bool) (s : List Nat) : Nat × Nat × Nat :=
  let receive_bytes := 4
  let seq_num := (command_count + 1) % 4294967296
  let d := flir_command_dispatcher seq_num cmd [] receive_bytes write_ok s
  if d.result = R_SUCCESS ∧ receive_bytes ≥ 4 then
    (d.result, seq_num, byteToUINT32 d.receive_data)
  else (d.result, seq_num, val0)

end SDK

namespace V4L2

/-- Frame encoder of `flir_boson_v4l2/flir-boson-fslp.c`
(`flir_fslp_send_frame`): identical wire format, `-EINVAL` when the payload
exceeds 256 bytes. -/
def flir_fslp_send_frame (payload : List Nat) : Except Int (List Nat) :=
  if payload.length > FLIR_FSLP_MAX_DATA then .error (-22)
  else .ok (frameBytes payload)

/-- Frame reader of `flir_boson_v4l2/flir-boson-fslp.c`
(`flir_fslp_read_frame`): reads the 4-byte header in one transfer, fails
with `-EPROTO` when the two magic tokens are not 0x8E,0xA1 (before any
payload byte is consumed), logs only a warning when the declared big-endian
length differs from `expected_len`, then reads exactly the declared number
of payload bytes (skipping the read when the declared length is 0). -/
def flir_fslp_read_frame (s : List Nat) (expected_len : Nat) :
    Except Int (List Nat × List Nat) :=
  match s with
  | h0 :: h1 :: h2 :: h3 :: t =>
    if h0 ≠ FLIR_MAGIC_TOKEN_0 ∨ h1 ≠ FLIR_MAGIC_TOKEN_1 then .error (-71)
    else
      let payload_len := h2 * 256 + h3
      if payload_len > 0 then
        if t.length < payload_len then .error (-5)
        else .ok (t.take payload_len, t.drop payload_len)
      else .ok ([], t)
  | _ => .error (-5)

/-- Outcome of one iteration of the response-read loop of the
`flir-boson-fslp.c` dispatcher; retryable conditions both finalize as
`-EPROTO` when they strike on the last iteration. -/
inductive FAttemptRes where
  /-- `flir_fslp_read_frame` returned an error, propagated verbatim. -/
  | ioFail (code : Int)
  | again (rest : List Nat)
  | good (payload : List Nat) (rest : List Nat)
deriving Repr, DecidableEq

/-- One iteration of the retry loop in `flir_command_dispatcher` of
`flir-boson-fslp.c`: frame read, the (never firing) short-response test on
the locally computed `expected_resp_len`, then the echoed-sequence check. -/
def dispatch_attempt (seq_num expected_resp_len : Nat) (s : List Nat) : FAttemptRes :=
  match flir_fslp_read_frame s expected_resp_len with
  | .error e => .ioFail e
  | .ok (payload, rest) =>
    if expected_resp_len < 12 then .again rest
    else if byteToUINT32 payload ≠ seq_num then .again rest
    else .good payload rest

/-- Result of the `flir-boson-fslp.c` dispatcher's two-iteration loop. -/
inductive FReadPhaseRes where
  | fail (code : Int) (reads : Nat)
  | ok (payload : List Nat) (reads : Nat) (rest : List Nat)
deriving Repr, DecidableEq

/-- The retry loop of the `flir-boson-fslp.c` dispatcher, unrolled:
one retry, then `-EPROTO` on a second retryable failure. -/
def dispatch_read_retry (seq_num expected_resp_len : Nat) (s : List Nat) : FReadPhaseRes :=
  match dispatch_attempt seq_num expected_resp_len s with
  | .ioFail e => .fail e 1
  | .good payload rest => .ok payload 1 rest
  | .again rest1 =>
    match dispatch_attempt seq_num expected_resp_len rest1 with
    | .ioFail e => .fail e 2
    | .good payload rest => .ok payload 2 rest
    | .again _ => .fail (-71) 2

/-- Observable outcome of one `flir_command_dispatcher` call
(`flir-boson-fslp.c`): the errno-style return value, the number of frame
read attempts, the bytes copied to `receive_data`, and the part of the
byte stream left unconsumed. -/
structure FDispatchOut where
  ret : Int
  frame_reads : Nat
  receive_data : List Nat
  rest : List Nat
deriving Repr, DecidableEq

/-- Command dispatcher of `flir_boson_v4l2/flir-boson-fslp.c`.  Rejects
`send_bytes > FLIR_FSLP_MAX_DATA - 12` with `-EINVAL` before any I2C
traffic; builds and sends the framed 12-byte-header payload (a failing
write surfaces the I2C error `-EIO`); sleeps 10 ms (not modelled); and —
only when the caller passed a `receive_bytes` pointer with `*receive_bytes
> 0` — reads `*receive_bytes + 12` response bytes with the one-retry loop
and validates sequence, command id (`-EPROTO` on mismatch) and status
(`-EREMOTEIO` when non-zero).  With no response expected it returns 0
immediately after the write, reading nothing.  `receive_bytes = none`
models a NULL pointer. -/
def flir_command_dispatcher (seq_num fn_id : Nat) (send_data : List Nat)
    (receive_bytes : Option Nat) (write_ok : Bool) (s : List Nat) : FDispatchOut :=
  if send_data.length > FLIR_FSLP_MAX_DATA - 12 then ⟨-22, 0, [], s⟩
  else if write_ok = false then ⟨-5, 0, [], s⟩
  else
    match receive_bytes with
    | none => ⟨0, 0, [], s⟩
    | some rb =>
      if rb = 0 then ⟨0, 0, [], s⟩
      else
        let expected_resp_len := rb + 12
        match dispatch_read_retry seq_num expected_resp_len s with
        | .fail e n => ⟨e, n, [], []⟩
        | .ok payload n rest =>
          if byteToUINT32 (payload.drop 4) ≠ fn_id then ⟨-71, n, [], rest⟩
          else if byteToUINT32 (payload.drop 8) ≠ R_SUCCESS then ⟨-121, n, [], rest⟩
          else ⟨0, n, (payload.drop 12).take rb, rest⟩

/-- Packager `flir_boson_set_mipi_state` (`flir-boson-fslp.c:388-403`):
allocates `seq_num = ++sensor->command_count`, dispatches
`DVO_SET_MIPI_STATE` with the big-endian state as body and NULL response
pointers, and assigns `sensor->mipi_state = state` only when the
dispatcher returned 0.  Returns (ret, new counter, `mipi_state` after). -/
def flir_boson_set_mipi_state (command_count mipi_state state : Nat)
    (write_ok : Bool) (s : List Nat) : Int × Nat × Nat :=
  let seq_num := (command_count + 1) % 4294967296
  let d := flir_command_dispatcher seq_num DVO_SET_MIPI_STATE
    (UINT32_ToBytes state) none write_ok s
  if d.ret = 0 then (d.ret, seq_num, state) else (d.ret, seq_num, mipi_state)

/-- Packager `flir_boson_get_mipi_state` (`flir-boson-fslp.c:415-430`):
empty body, `receive_bytes = 4`; `*state` (value `state0` before the
call) is overwritten with the big-endian decode of the response data only
when the dispatcher returned 0 and `receive_bytes >= 4` (the dispatcher
never updates `receive_bytes`).  Returns (ret, new counter, `*state`
after the call). -/
def flir_boson_get_mipi_state (command_count state0 : Nat)
    (write_ok : Bool) (s : List Nat) : Int × Nat × Nat :=
  let receive_bytes := 4
  let seq_num := (command_count + 1) % 4294967296
  let d := flir_command_dispatcher seq_num DVO_GET_MIPI_STATE []
    (some receive_bytes) write_ok s
  if d.ret = 0 ∧ receive_bytes ≥ 4 then (d.ret, seq_num, byteToUINT32 d.receive_data)
  else (d.ret, seq_num, state0)

end V4L2

namespace Core

/-- Conversion `flr_result_to_errno` from the v4l2 core (`part_002`):
maps `FLR_RESULT` codes to negative Linux errno values; anything not
listed — including values that are already negative errnos — falls to the
default `-EREMOTEIO` (-121). -/
def flr_result_to_errno (result : Int) : Int :=
  if result = 0 then 0                                    -- R_SUCCESS
  else if result = 517 ∨ result = 385 then -22            -- bad arg / invalid input
  else if result = 621 ∨ result = 622 then -5             -- comm timeout / read error
  else if result = 514 ∨ result = 643 then -16            -- not ready / busy
  else if result = 515 ∨ result = 518 then -34            -- range / data size
  else if result = 303 ∨ result = 383 then -28            -- pkg buffer overflow
  else if result = 613 ∨ result = 620 then -19            -- port not open / no dev
  else if result = 305 ∨ result = 306 then -71            -- sequence / id mismatch
  else -121

/-- Device-configuration fields of `flir_boson_dev` that
`flir_boson_set_fmt` records on completion; other sensor fields are
untouched by it.  The formats/framesizes are referenced by table index. -/
structure FmtConfig where
  current_format : Nat
  current_framesize : Nat
deriving Repr, DecidableEq

/-- Number of packager calls the telemetry block of `flir_boson_set_fmt`
issues: three (`TELEMETRY_SETSTATE`, `TELEMETRY_SETLOCATION`,
`TELEMETRY_SETMIPIEMBEDDEDDATATAG`) when the requested height is at least
512, otherwise one (`TELEMETRY_SETSTATE` disable).  None of their return
values is checked. -/
def telemetry_calls (heightGe512 : Bool) : Nat := if heightGe512 then 3 else 1

/-- Number of `flir_boson_get_int_val` calls inside
`flir_get_agc_paramaters` (`part_002:343-377`): 18, their `&`-combined
result is assigned to `ret` in `set_fmt` but never checked there. -/
def agc_get_calls : Nat := 18

/-- Number of packager calls in the radiometry block of `set_fmt`
(`BOSON_SETGAINMODE`, `AGC_SETMODE`, `BOSON_RUNFFC` query), taken when the
new format is `Y14` and the `enable_radiometry` module parameter is set;
their failures are logged, the aborting `goto unlock` is commented out. -/
def radiometry_calls (radiometry : Bool) : Nat := if radiometry then 3 else 0

/-- Index, in order of execution, of the checked `DVO_SETTYPE` call. -/
def idx_settype (heightGe512 : Bool) : Nat := 1 + telemetry_calls heightGe512

/-- Index of the checked `DVO_SETOUTPUTFORMAT` call. -/
def idx_outputformat (heightGe512 : Bool) : Nat := idx_settype heightGe512 + 1

/-- Index of the checked `flir_boson_set_dvo_muxtype` call: after the AGC
queries, the optional radiometry block, and the unconditional second
`DVO_SETMIPISTATE OFF` whose return value is dropped. -/
def idx_muxtype (heightGe512 radiometry : Bool) : Nat :=
  idx_outputformat heightGe512 + 1 + agc_get_calls + radiometry_calls radiometry + 1

/-- Final return statement of `flir_boson_set_fmt`:
`ret == R_SUCCESS ? 0 : (ret > 0 ? ret : flr_result_to_errno(ret))`.
Note the abort paths have already converted `ret` to a negative errno, so
they fall into `flr_result_to_errno`'s default `-EREMOTEIO`. -/
def set_fmt_return (ret : Int) : Int :=
  if ret = 0 then 0 else if ret > 0 then ret else flr_result_to_errno ret

/-- Active-format path of `flir_boson_set_fmt` (`part_002:415-578`),
after the TRY-format early return.  Dispatcher-level behaviour of each
packager call is abstracted by `oracle`, giving the `FLR_RESULT` of the
i-th packager call of the operation (call order and indices documented on
`idx_settype` / `idx_outputformat` / `idx_muxtype`; calls whose result the
C code never checks are never inspected).  Control flow exactly as in the
C: `-EBUSY` while streaming; the initial `DVO_SETMIPISTATE OFF`,
`DVO_SETTYPE`, `DVO_SETOUTPUTFORMAT` and `flir_boson_set_dvo_muxtype`
results are checked and abort via `goto unlock` leaving the configuration
untouched; the telemetry, AGC-query, radiometry and second MIPI-OFF calls
are issued but their failures never abort; on reaching the end
`current_format`/`current_framesize` are set to the new entries.
Returns (return value, configuration after the call). -/
def flir_boson_set_fmt (streaming : Bool) (cfg : FmtConfig)
    (new_format new_framesize : Nat) (heightGe512 radiometry : Bool)
    (oracle : Nat → Int) : Int × FmtConfig :=
  if streaming then (set_fmt_return (-16), cfg)
  else
    let r0 := oracle 0
    if r0 ≠ 0 then (set_fmt_return (flr_result_to_errno r0), cfg)
    else
      let rT := oracle (idx_settype heightGe512)
      if rT ≠ 0 then (set_fmt_return (flr_result_to_errno rT), cfg)
      else
        let rO := oracle (idx_outputformat heightGe512)
        if rO ≠ 0 then (set_fmt_return (flr_result_to_errno rO), cfg)
        else
          let rM := oracle (idx_muxtype heightGe512 radiometry)
          if rM ≠ 0 then (set_fmt_return (flr_result_to_errno rM), cfg)
          else (set_fmt_return 0, ⟨new_format, new_framesize⟩)

end Core

/-! Basic facts about the serializers. -/

theorem byteToUINT32_UINT32_ToBytes (v : Nat) (r : List Nat) (h : v < 4294967296) :
    byteToUINT32 (UINT32_ToBytes v ++ r) = v := by
  simp only [UINT32_ToBytes, byteToUINT32, List.cons_append, List.nil_append,
    List.getD_cons_zero, List.getD_cons_succ]
  omega

theorem UINT32_ToBytes_append_drop (v : Nat) (r : List Nat) :
    (UINT32_ToBytes v ++ r).drop 4 = r := by
  simp [UINT32_ToBytes]

theorem frameBytes_append (p rest : List Nat) :
    frameBytes p ++ rest =
      0x8E :: 0xA1 :: (p.length / 256 % 256) :: (p.length % 256) :: (p ++ rest) := by
  simp [frameBytes]

theorem SDK.read_frame_frameBytes_sdk (p rest : List Nat) (e : Nat)
    (h : p.length < 65536) :
    SDK.flir_fslp_read_frame (frameBytes p ++ rest) e = .ok (p, rest) := by
  have hlen : p.length / 256 % 256 * 256 + p.length % 256 = p.length := by omega
  rw [frameBytes_append]
  simp only [SDK.flir_fslp_read_frame, FLIR_MAGIC_TOKEN_1, hlen]
  have hle : ¬ (p ++ rest).length < p.length := by
    simp [List.length_append]
  simp [hle, List.take_left, List.drop_left]

theorem V4L2.read_frame_frameBytes_v4l2 (p rest : List Nat) (e : Nat)
    (h : p.length < 65536) :
    V4L2.flir_fslp_read_frame (frameBytes p ++ rest) e = .ok (p, rest) := by
  have hlen : p.length / 256 % 256 * 256 + p.length % 256 = p.length := by omega
  rw [frameBytes_append]
  simp only [V4L2.flir_fslp_read_frame, FLIR_MAGIC_TOKEN_0, FLIR_MAGIC_TOKEN_1, hlen]
  have hle : ¬ (p ++ rest).length < p.length := by
    simp [List.length_append]
  rcases Nat.eq_zero_or_pos p.length with hz | hp
  · rw [List.eq_nil_of_length_eq_zero hz] at *
    simp
  · simp [hle, hp, List.take_left, List.drop_left]

/-! Helper lemmas about the SDK dispatcher on streams that start with the
empty-buffer marker and then carry well-formed frames. -/

theorem SDK.flush_rx_marker (s : List Nat) :
    SDK.flush_rx (0xFF :: 0xFF :: 0xFF :: 0xFF :: s) = some s := by
  simp [SDK.flush_rx]

theorem SDK.dispatch_attempt_frame_mismatch (seq_num rb : Nat) (p rest : List Nat)
    (hl : p.length < 65536) (h : byteToUINT32 p ≠ seq_num) :
    SDK.dispatch_attempt seq_num (rb + 12) (frameBytes p ++ rest) =
      .again R_SDK_DSPCH_SEQUENCE_MISMATCH rest := by
  unfold SDK.dispatch_attempt
  rw [SDK.read_frame_frameBytes_sdk p rest _ hl]
  have h12 : ¬ (rb + 12 < 12) := by omega
  simp [h12, h]

theorem SDK.dispatch_attempt_frame_match (seq_num rb : Nat) (p rest : List Nat)
    (hl : p.length < 65536) (h : byteToUINT32 p = seq_num) :
    SDK.dispatch_attempt seq_num (rb + 12) (frameBytes p ++ rest) = .good p rest := by
  unfold SDK.dispatch_attempt
  rw [SDK.read_frame_frameBytes_sdk p rest _ hl]
  have h12 : ¬ (rb + 12 < 12) := by omega
  simp [h12, h]

theorem SDK.command_payload_fits (seq_num fn_id : Nat) (send_data : List Nat)
    (hs : send_data.length ≤ 244) :
    ¬ ((UINT32_ToBytes seq_num ++ UINT32_ToBytes fn_id ++
        UINT32_ToBytes 0xFFFFFFFF ++ send_data).length > FLIR_FSLP_MAX_DATA ∨
       true = false) := by
  simp [UINT32_ToBytes, FLIR_FSLP_MAX_DATA]
  omega

/-- C1: when the first response frame read back by the SDK dispatcher
echoes a sequence number different from the one sent, the dispatcher
retries the read exactly once; when the second response also echoes a
stale sequence it returns `R_SDK_DSPCH_SEQUENCE_MISMATCH` having made
exactly two (never three) frame-read attempts.  `p1`, `p2` are the two
response payloads the transport delivers (after the RX-buffer flush
marker), both echoing a wrong sequence in their first four bytes. -/
theorem C1_two_stale_sequences_retry_once_then_seq_mismatch
    (seq_num fn_id rb : Nat) (send_data p1 p2 extra : List Nat)
    (hs : send_data.length ≤ 244)
    (hl1 : p1.length < 65536) (hl2 : p2.length < 65536)
    (h1 : byteToUINT32 p1 ≠ seq_num) (h2 : byteToUINT32 p2 ≠ seq_num) :
    SDK.flir_command_dispatcher seq_num fn_id send_data rb true
      (0xFF :: 0xFF :: 0xFF :: 0xFF :: (frameBytes p1 ++ (frameBytes p2 ++ extra)))
      = ⟨R_SDK_DSPCH_SEQUENCE_MISMATCH, 2, []⟩ := by
  have ha1 := SDK.dispatch_attempt_frame_mismatch seq_num rb p1 (frameBytes p2 ++ extra) hl1 h1
  have ha2 := SDK.dispatch_attempt_frame_mismatch seq_num rb p2 extra hl2 h2
  have hfit := SDK.command_payload_fits seq_num fn_id send_data hs
  unfold SDK.flir_command_dispatcher SDK.dispatch_read_retry
  simp only [SDK.flush_rx_marker]
  rw [if_neg hfit]
  simp only [ha1, ha2]

/-- C1 witness: concrete instance with sent sequence 5 and two responses
echoing sequence 0. -/
theorem C1_witness :
    SDK.flir_command_dispatcher 5 2 [] 0 true
      (0xFF :: 0xFF :: 0xFF :: 0xFF ::
        (frameBytes (List.replicate 12 0) ++ (frameBytes (List.replicate 12 0) ++ [])))
      = ⟨R_SDK_DSPCH_SEQUENCE_MISMATCH, 2, []⟩ :=
  C1_two_stale_sequences_retry_once_then_seq_mismatch 5 2 0 []
    (List.replicate 12 0) (List.replicate 12 0) []
    (by decide) (by decide) (by decide) (by decide) (by decide)

theorem header_field_seq (a b c : Nat) (r : List Nat) (h : a < 4294967296) :
    byteToUINT32 (UINT32_ToBytes a ++ UINT32_ToBytes b ++ UINT32_ToBytes c ++ r) = a := by
  simp only [UINT32_ToBytes, byteToUINT32, List.cons_append, List.nil_append,
    List.getD_cons_zero, List.getD_cons_succ]
  omega

theorem header_field_id (a b c : Nat) (r : List Nat) (h : b < 4294967296) :
    byteToUINT32
      ((UINT32_ToBytes a ++ UINT32_ToBytes b ++ UINT32_ToBytes c ++ r).drop 4) = b := by
  simp only [UINT32_ToBytes, List.cons_append, List.nil_append]
  simp only [List.drop_succ_cons, List.drop_zero]
  simp only [byteToUINT32, List.getD_cons_zero, List.getD_cons_succ]
  omega

theorem header_field_status (a b c : Nat) (r : List Nat) (h : c < 4294967296) :
    byteToUINT32
      ((UINT32_ToBytes a ++ UINT32_ToBytes b ++ UINT32_ToBytes c ++ r).drop 8) = c := by
  simp only [UINT32_ToBytes, List.cons_append, List.nil_append]
  simp only [List.drop_succ_cons, List.drop_zero]
  simp only [byteToUINT32, List.getD_cons_zero, List.getD_cons_succ]
  omega

theorem header_drop12 (a b c : Nat) (r : List Nat) :
    (UINT32_ToBytes a ++ UINT32_ToBytes b ++ UINT32_ToBytes c ++ r).drop 12 = r := by
  simp only [UINT32_ToBytes, List.cons_append, List.nil_append]
  simp only [List.drop_succ_cons, List.drop_zero]

theorem UINT32_ToBytes_length_append (a b c : Nat) (r : List Nat) :
    (UINT32_ToBytes a ++ UINT32_ToBytes b ++ UINT32_ToBytes c ++ r).length
      = 12 + r.length := by
  simp [UINT32_ToBytes]
  omega

/-- C2: when the response frame accepted by the SDK dispatcher echoes the
sent sequence and function id but carries a non-zero big-endian status,
the dispatcher performs no retry (a single frame read) and returns exactly
the numeric status value the camera sent as its `FLR_RESULT` — the camera
status is preserved, not collapsed to a generic error. -/
theorem C2_nonzero_status_preserved_without_retry
    (seq_num fn_id status rb : Nat) (send_data data extra : List Nat)
    (hs : send_data.length ≤ 244)
    (hseq : seq_num < 4294967296) (hfn : fn_id < 4294967296)
    (hst : status < 4294967296) (hstatus : status ≠ 0)
    (hdata : data.length < 65524) :
    SDK.flir_command_dispatcher seq_num fn_id send_data rb true
      (0xFF :: 0xFF :: 0xFF :: 0xFF ::
        (frameBytes (UINT32_ToBytes seq_num ++ UINT32_ToBytes fn_id ++
          UINT32_ToBytes status ++ data) ++ extra))
      = ⟨status, 1, []⟩ := by
  have hplen :
      (UINT32_ToBytes seq_num ++ UINT32_ToBytes fn_id ++
        UINT32_ToBytes status ++ data).length < 65536 := by
    rw [UINT32_ToBytes_length_append]; omega
  have hseq' := header_field_seq seq_num fn_id status data hseq
  have ha := SDK.dispatch_attempt_frame_match seq_num rb _ extra hplen hseq'
  have hfit := SDK.command_payload_fits seq_num fn_id send_data hs
  have hid := header_field_id seq_num fn_id status data hfn
  have hst8 := header_field_status seq_num fn_id status data hst
  unfold SDK.flir_command_dispatcher SDK.dispatch_read_retry
  simp only [SDK.flush_rx_marker]
  rw [if_neg hfit]
  simp only [ha, hid, hst8, R_SUCCESS, hstatus]
  simp [hstatus]

/-- C2 witness: concrete dispatch whose response echoes sequence 1 and
function id 2 with camera status `FLR_RANGE_ERROR` (515): the dispatcher
returns 515 itself after one read. -/
theorem C2_witness :
    SDK.flir_command_dispatcher 1 2 [] 0 true
      (0xFF :: 0xFF :: 0xFF :: 0xFF ::
        (frameBytes (UINT32_ToBytes 1 ++ UINT32_ToBytes 2 ++
          UINT32_ToBytes 515 ++ []) ++ []))
      = ⟨515, 1, []⟩ :=
  C2_nonzero_status_preserved_without_retry 1 2 515 0 [] [] []
    (by decide) (by decide) (by decide) (by decide) (by decide) (by decide)

/-- C4: first conjunct — when the response accepted by the SDK dispatcher
echoes the sent sequence but a function id different from the one sent,
the dispatcher returns `R_SDK_DSPCH_ID_MISMATCH` after a single frame
read: no retry is performed for an id mismatch.  Second conjunct — the id
check is only reached once the sequence check has passed: when both
responses echo a stale sequence the dispatcher reports
`R_SDK_DSPCH_SEQUENCE_MISMATCH`, even though their echoed function ids
differ from the sent one as well. -/
theorem C4_id_mismatch_immediate_and_after_seq_check :
    (∀ (seq_num fn_id echoed_id status rb : Nat) (send_data data extra : List Nat),
      send_data.length ≤ 244 → seq_num < 4294967296 → echoed_id < 4294967296 →
      data.length < 65524 → echoed_id ≠ fn_id →
      SDK.flir_command_dispatcher seq_num fn_id send_data rb true
        (0xFF :: 0xFF :: 0xFF :: 0xFF ::
          (frameBytes (UINT32_ToBytes seq_num ++ UINT32_ToBytes echoed_id ++
            UINT32_ToBytes status ++ data) ++ extra))
        = ⟨R_SDK_DSPCH_ID_MISMATCH, 1, []⟩) ∧
    (∀ (seq_num fn_id rb : Nat) (send_data p1 p2 extra : List Nat),
      send_data.length ≤ 244 →
      p1.length < 65536 → p2.length < 65536 →
      byteToUINT32 p1 ≠ seq_num → byteToUINT32 p2 ≠ seq_num →
      byteToUINT32 (p1.drop 4) ≠ fn_id → byteToUINT32 (p2.drop 4) ≠ fn_id →
      SDK.flir_command_dispatcher seq_num fn_id send_data rb true
        (0xFF :: 0xFF :: 0xFF :: 0xFF :: (frameBytes p1 ++ (frameBytes p2 ++ extra)))
        = ⟨R_SDK_DSPCH_SEQUENCE_MISMATCH, 2, []⟩) := by
  constructor
  · intro seq_num fn_id echoed_id status rb send_data data extra
      hs hseq hech hdata hne
    have hplen :
        (UINT32_ToBytes seq_num ++ UINT32_ToBytes echoed_id ++
          UINT32_ToBytes status ++ data).length < 65536 := by
      rw [UINT32_ToBytes_length_append]; omega
    have hseq' := header_field_seq seq_num echoed_id status data hseq
    have ha := SDK.dispatch_attempt_frame_match seq_num rb _ extra hplen hseq'
    have hfit := SDK.command_payload_fits seq_num fn_id send_data hs
    have hid := header_field_id seq_num echoed_id status data hech
    unfold SDK.flir_command_dispatcher SDK.dispatch_read_retry
    simp only [SDK.flush_rx_marker]
    rw [if_neg hfit]
    simp only [ha, hid]
    simp [hne]
  · intro seq_num fn_id rb send_data p1 p2 extra hs hl1 hl2 h1 h2 _hid1 _hid2
    have ha1 := SDK.dispatch_attempt_frame_mismatch seq_num rb p1 (frameBytes p2 ++ extra) hl1 h1
    have ha2 := SDK.dispatch_attempt_frame_mismatch seq_num rb p2 extra hl2 h2
    have hfit := SDK.command_payload_fits seq_num fn_id send_data hs
    unfold SDK.flir_command_dispatcher SDK.dispatch_read_retry
    simp only [SDK.flush_rx_marker]
    rw [if_neg hfit]
    simp only [ha1, ha2]

/-- C4 witness: instance of the first conjunct with sent id 2 and echoed
id 3 (sequence 7 echoed correctly), and of the second with sent sequence 7
and two responses echoing sequence 0 and id 9. -/
theorem C4_witness :
    SDK.flir_command_dispatcher 7 2 [] 0 true
      (0xFF :: 0xFF :: 0xFF :: 0xFF ::
        (frameBytes (UINT32_ToBytes 7 ++ UINT32_ToBytes 3 ++
          UINT32_ToBytes 0 ++ []) ++ []))
      = ⟨R_SDK_DSPCH_ID_MISMATCH, 1, []⟩ ∧
    SDK.flir_command_dispatcher 7 2 [] 0 true
      (0xFF :: 0xFF :: 0xFF :: 0xFF ::
        (frameBytes (UINT32_ToBytes 0 ++ UINT32_ToBytes 9 ++ UINT32_ToBytes 0 ++ []) ++
          (frameBytes (UINT32_ToBytes 0 ++ UINT32_ToBytes 9 ++ UINT32_ToBytes 0 ++ []) ++ [])))
      = ⟨R_SDK_DSPCH_SEQUENCE_MISMATCH, 2, []⟩ :=
  ⟨C4_id_mismatch_immediate_and_after_seq_check.1 7 2 3 0 0 [] [] []
      (by decide) (by decide) (by decide) (by decide) (by decide),
   C4_id_mismatch_immediate_and_after_seq_check.2 7 2 0 []
      (UINT32_ToBytes 0 ++ UINT32_ToBytes 9 ++ UINT32_ToBytes 0 ++ [])
      (UINT32_ToBytes 0 ++ UINT32_ToBytes 9 ++ UINT32_ToBytes 0 ++ []) []
      (by decide) (by decide) (by decide) (by decide) (by decide)
      (by decide) (by decide)⟩

/-- C3: frame round-trip.  For every payload of at most 256 bytes (the
empty payload included), both `flir_fslp_send_frame` variants encode it
into the frame `0x8E, 0xA1, big-endian u16 length, payload`, and both
`flir_fslp_read_frame` variants decode that frame back to exactly the
original payload, consuming the whole frame. -/
theorem C3_frame_encode_decode_roundtrip (p : List Nat) (h : p.length ≤ 256) :
    V4L2.flir_fslp_send_frame p = .ok (frameBytes p) ∧
    V4L2.flir_fslp_read_frame (frameBytes p) p.length = .ok (p, []) ∧
    SDK.flir_fslp_send_frame p = .ok (frameBytes p) ∧
    SDK.flir_fslp_read_frame (frameBytes p) p.length = .ok (p, []) := by
  have hl : p.length < 65536 := by omega
  have hv := V4L2.read_frame_frameBytes_v4l2 p [] p.length hl
  have hsdk := SDK.read_frame_frameBytes_sdk p [] p.length hl
  rw [List.append_nil] at hv hsdk
  refine ⟨?_, hv, ?_, hsdk⟩
  · unfold V4L2.flir_fslp_send_frame
    rw [if_neg (by simp only [FLIR_FSLP_MAX_DATA]; omega)]
  · unfold SDK.flir_fslp_send_frame
    rw [if_neg (by simp only [FLIR_FSLP_MAX_DATA]; omega)]

/-- C3 witness: the three-byte payload `[1, 2, 3]` and the empty payload
both survive the round-trip. -/
theorem C3_witness :
    (V4L2.flir_fslp_send_frame [1, 2, 3] = .ok (frameBytes [1, 2, 3]) ∧
     V4L2.flir_fslp_read_frame (frameBytes [1, 2, 3]) 3 = .ok ([1, 2, 3], []) ∧
     SDK.flir_fslp_send_frame [1, 2, 3] = .ok (frameBytes [1, 2, 3]) ∧
     SDK.flir_fslp_read_frame (frameBytes [1, 2, 3]) 3 = .ok ([1, 2, 3], [])) ∧
    (V4L2.flir_fslp_send_frame [] = .ok (frameBytes []) ∧
     V4L2.flir_fslp_read_frame (frameBytes []) 0 = .ok ([], []) ∧
     SDK.flir_fslp_send_frame [] = .ok (frameBytes []) ∧
     SDK.flir_fslp_read_frame (frameBytes []) 0 = .ok ([], [])) :=
  ⟨C3_frame_encode_decode_roundtrip [1, 2, 3] (by decide),
   C3_frame_encode_decode_roundtrip [] (by decide)⟩

/-- C7 counterexample: the decoder accepts a frame whose declared 16-bit
length is 257 > 256.  `flir_fslp_read_frame` (the `flir-boson-fslp.c`
variant, which the claim cites for the decode side) returns success with
the full 257-byte payload — it never checks the declared length against
`MAX_PAYLOAD`, refuting "decode_frame never accepts a frame whose declared
16-bit length exceeds 256". -/
theorem C7_counterexample_decode_accepts_257 :
    V4L2.flir_fslp_read_frame (frameBytes (List.replicate 257 0)) 257
      = .ok (List.replicate 257 0, []) := by
  have h := V4L2.read_frame_frameBytes_v4l2 (List.replicate 257 0) [] 257
    (by rw [List.length_replicate]; omega)
  rwa [List.append_nil] at h

/-- C7 amended: the encode side of the invariant holds — both
`flir_fslp_send_frame` variants reject any payload longer than 256 bytes
with `-EINVAL` before writing — but the decode side enforces no cap: both
`flir_fslp_read_frame` variants accept any well-formed frame whose
declared 16-bit length is within the u16 range (up to 65535), reading
exactly the declared number of payload bytes; the declared length is only
compared (with a log warning) against the caller's expected length. -/
theorem C7_amended_encode_caps_decode_does_not :
    (∀ p : List Nat, p.length > 256 →
      V4L2.flir_fslp_send_frame p = .error (-22) ∧
      SDK.flir_fslp_send_frame p = .error (-22)) ∧
    (∀ p : List Nat, p.length < 65536 →
      V4L2.flir_fslp_read_frame (frameBytes p) p.length = .ok (p, []) ∧
      SDK.flir_fslp_read_frame (frameBytes p) p.length = .ok (p, [])) := by
  constructor
  · intro p hp
    constructor
    · unfold V4L2.flir_fslp_send_frame
      rw [if_pos (by simp only [FLIR_FSLP_MAX_DATA]; omega)]
    · unfold SDK.flir_fslp_send_frame
      rw [if_pos (by simp only [FLIR_FSLP_MAX_DATA]; omega)]
  · intro p hp
    have hv := V4L2.read_frame_frameBytes_v4l2 p [] p.length hp
    have hsdk := SDK.read_frame_frameBytes_sdk p [] p.length hp
    rw [List.append_nil] at hv hsdk
    exact ⟨hv, hsdk⟩

/-- C7 amended witness: a 257-byte payload is rejected by the encoders and
accepted by the decoders. -/
theorem C7_witness :
    (V4L2.flir_fslp_send_frame (List.replicate 257 0) = .error (-22) ∧
     SDK.flir_fslp_send_frame (List.replicate 257 0) = .error (-22)) ∧
    (V4L2.flir_fslp_read_frame (frameBytes (List.replicate 257 0)) 257
        = .ok (List.replicate 257 0, []) ∧
     SDK.flir_fslp_read_frame (frameBytes (List.replicate 257 0)) 257
        = .ok (List.replicate 257 0, [])) := by
  constructor
  · exact C7_amended_encode_caps_decode_does_not.1 (List.replicate 257 0)
      (by rw [List.length_replicate]; omega)
  · have h := C7_amended_encode_caps_decode_does_not.2 (List.replicate 257 0)
      (by rw [List.length_replicate]; omega)
    rwa [List.length_replicate] at h

/-- C8: the `part_000` frame reader violates the bad-magic contract.  On a
transport whose first two bytes are `0x8E, 0x00` (second magic token
wrong) it returns success — `return ret` with `ret = 0` — with no payload
read, instead of a hard `BadMagic` protocol error; and a transport
starting `0x00, 0xA1` (first magic token wrong, which the code never
compares) is accepted and parsed as a normal frame.  The sibling
implementation in `flir-boson-fslp.c`, which matches the claim, fails
the same first input with `-EPROTO` before consuming any payload byte. -/
theorem C8_part000_read_frame_accepts_bad_magic :
    SDK.flir_fslp_read_frame [0x8E, 0x00, 0x00, 0x04] 16 = .ok ([], [0x00, 0x04]) ∧
    SDK.flir_fslp_read_frame [0x00, 0xA1, 0x00, 0x01, 0x42] 1 = .ok ([0x42], []) ∧
    V4L2.flir_fslp_read_frame [0x8E, 0x00, 0x00, 0x04] 16 = .error (-71) ∧
    V4L2.flir_fslp_read_frame [0x00, 0xA1, 0x00, 0x01, 0x42] 1 = .error (-71) := by
  refine ⟨rfl, rfl, rfl, rfl⟩

/-- C5: sequence allocation.  Each packager call performs exactly one
pre-increment of the session's `command_count` (`u32`, so wrapping at
`2^32`) and uses the incremented value as the sequence number, so for any
two consecutively dispatched commands the second sequence number is the
first plus one modulo `2^32`; a call made with the counter at `0xFFFFFFFF`
uses sequence 0.  Holds for any commands, values, delays, write outcomes
and transport streams. -/
theorem C5_sequence_counter_increments_and_wraps :
    (∀ (count cmd1 val1 d1 : Nat) (w1 : Bool) (s1 : List Nat)
       (cmd2 val2 d2 : Nat) (w2 : Bool) (s2 : List Nat),
      (SDK.flir_boson_send_int_cmd count cmd1 val1 d1 w1 s1).command_count
          = (count + 1) % 4294967296 ∧
      (SDK.flir_boson_send_int_cmd count cmd1 val1 d1 w1 s1).seq_used
          = (count + 1) % 4294967296 ∧
      (SDK.flir_boson_send_int_cmd
          (SDK.flir_boson_send_int_cmd count cmd1 val1 d1 w1 s1).command_count
          cmd2 val2 d2 w2 s2).seq_used
        = ((SDK.flir_boson_send_int_cmd count cmd1 val1 d1 w1 s1).seq_used + 1)
            % 4294967296) ∧
    (∀ (cmd val d : Nat) (w : Bool) (s : List Nat),
      (SDK.flir_boson_send_int_cmd 4294967295 cmd val d w s).seq_used = 0) := by
  constructor
  · intro count cmd1 val1 d1 w1 s1 cmd2 val2 d2 w2 s2
    refine ⟨rfl, rfl, rfl⟩
  · intro cmd val d w s
    show (4294967295 + 1) % 4294967296 = 0
    omega

/-- C6: fire-and-forget dispatch.  When the caller of the
`flir-boson-fslp.c` dispatcher passes a NULL `receive_bytes` pointer or an
expected response length of 0, the dispatcher returns 0 (success) right
after the frame write: it makes no frame-read attempt, copies no response
data, and leaves the transport stream untouched — no response header is
ever validated. -/
theorem C6_no_response_expected_returns_after_write
    (seq_num fn_id : Nat) (send_data s : List Nat) (receive_bytes : Option Nat)
    (hs : send_data.length ≤ 244)
    (hrb : receive_bytes = none ∨ receive_bytes = some 0) :
    V4L2.flir_command_dispatcher seq_num fn_id send_data receive_bytes true s
      = ⟨0, 0, [], s⟩ := by
  unfold V4L2.flir_command_dispatcher
  rw [if_neg (by simp only [FLIR_FSLP_MAX_DATA]; omega)]
  rcases hrb with h | h <;> subst h <;> simp

/-- C6 witness: both fire-and-forget encodings (NULL pointer, expected
length 0) on a concrete non-empty stream, which stays untouched. -/
theorem C6_witness :
    V4L2.flir_command_dispatcher 1 2 [0, 0, 0, 2] none true [9, 9, 9]
      = ⟨0, 0, [], [9, 9, 9]⟩ ∧
    V4L2.flir_command_dispatcher 1 2 [0, 0, 0, 2] (some 0) true [9, 9, 9]
      = ⟨0, 0, [], [9, 9, 9]⟩ :=
  ⟨C6_no_response_expected_returns_after_write 1 2 [0, 0, 0, 2] [9, 9, 9] none
      (by decide) (Or.inl rfl),
   C6_no_response_expected_returns_after_write 1 2 [0, 0, 0, 2] [9, 9, 9] (some 0)
      (by decide) (Or.inr rfl)⟩

/-- C9 counterexample: in `flir_boson_set_fmt` a failing dispatcher call
does not keep the configuration unchanged.  Concretely: not streaming,
height >= 512, radiometry off, and the `TELEMETRY_SETSTATE` packager call
(index 1 of the operation) fails with `FLR_COMM_ERROR_READING_COMM` (622)
while every other call succeeds — the function still records the new
`current_format`/`current_framesize` (old ⟨0,0⟩ becomes ⟨1,1⟩) and even
returns 0, because the telemetry results are assigned to `ret` but never
checked. -/
theorem C9_counterexample_failed_telemetry_call_still_updates_format :
    Core.flir_boson_set_fmt false ⟨0, 0⟩ 1 1 true false
        (fun i => if i = 1 then 622 else 0)
      = (0, ⟨1, 1⟩) ∧
    (fun i => if i = 1 then (622 : Int) else 0) 1 ≠ 0 := by
  exact ⟨rfl, by norm_num⟩

/-- C9 amended: configuration state is updated only when the checked
dispatcher calls of the operation succeed.  `flir_boson_set_mipi_state`
(`flir-boson-fslp.c`) leaves `mipi_state` untouched whenever its
dispatcher call fails; `flir_boson_set_fmt` leaves
`current_format`/`current_framesize` untouched whenever one of its four
checked calls — the initial `DVO_SETMIPISTATE OFF`, `DVO_SETTYPE`,
`DVO_SETOUTPUTFORMAT`, or `flir_boson_set_dvo_muxtype` — fails (aborting
the transition); failures of the unchecked telemetry, AGC-query,
radiometry and second MIPI-off calls are only logged and do not prevent
the update. -/
theorem C9_amended_config_updated_only_on_checked_success :
    (∀ (command_count mipi_state state : Nat) (write_ok : Bool) (s : List Nat),
      (V4L2.flir_boson_set_mipi_state command_count mipi_state state write_ok s).1 ≠ 0 →
      (V4L2.flir_boson_set_mipi_state command_count mipi_state state write_ok s).2.2
        = mipi_state) ∧
    (∀ (streaming : Bool) (cfg : Core.FmtConfig) (nf nfs : Nat)
       (hG rad : Bool) (oracle : Nat → Int),
      (oracle 0 ≠ 0 ∨ oracle (Core.idx_settype hG) ≠ 0 ∨
       oracle (Core.idx_outputformat hG) ≠ 0 ∨
       oracle (Core.idx_muxtype hG rad) ≠ 0) →
      (Core.flir_boson_set_fmt streaming cfg nf nfs hG rad oracle).2 = cfg) := by
  constructor
  · intro command_count mipi_state state write_ok s hret
    by_cases hd : (V4L2.flir_command_dispatcher ((command_count + 1) % 4294967296)
        DVO_SET_MIPI_STATE (UINT32_ToBytes state) none write_ok s).ret = 0
    · exact absurd (by simp [V4L2.flir_boson_set_mipi_state, hd]) hret
    · simp [V4L2.flir_boson_set_mipi_state, hd]
  · intro streaming cfg nf nfs hG rad oracle hfail
    unfold Core.flir_boson_set_fmt
    by_cases hstr : streaming
    · simp [hstr]
    · by_cases h0 : oracle 0 = 0
      · by_cases hT : oracle (Core.idx_settype hG) = 0
        · by_cases hO : oracle (Core.idx_outputformat hG) = 0
          · by_cases hM : oracle (Core.idx_muxtype hG rad) = 0
            · rcases hfail with h | h | h | h <;> simp_all
            · simp [hstr, h0, hT, hO, hM]
          · simp [hstr, h0, hT, hO]
        · simp [hstr, h0, hT]
      · simp [hstr, h0]

/-- C9 amended witness: a failing write leaves `mipi_state` at its old
value 7, and a failing initial MIPI-off call leaves the format
configuration at ⟨3, 4⟩. -/
theorem C9_witness :
    (V4L2.flir_boson_set_mipi_state 0 7 2 false []).2.2 = 7 ∧
    (Core.flir_boson_set_fmt false ⟨3, 4⟩ 1 1 false false (fun _ => 622)).2 = ⟨3, 4⟩ :=
  ⟨C9_amended_config_updated_only_on_checked_success.1 0 7 2 false [] (by decide),
   C9_amended_config_updated_only_on_checked_success.2 false ⟨3, 4⟩ 1 1 false false
      (fun _ => 622) (Or.inl (by norm_num))⟩

/-- C10: the get-integer packagers write the caller's output variable only
when the dispatcher returned success (and the never-decreased
`receive_bytes` check passes); whenever the dispatcher fails the output
variable keeps the value it held before the call.  Stated for
`flir_boson_get_int_val` (`part_000`) and `flir_boson_get_mipi_state`
(`flir-boson-fslp.c`), over every transport stream and write outcome. -/
theorem C10_output_written_only_on_dispatch_success :
    (∀ (command_count cmd val0 : Nat) (write_ok : Bool) (s : List Nat),
      (SDK.flir_boson_get_int_val command_count cmd val0 write_ok s).1 ≠ R_SUCCESS →
      (SDK.flir_boson_get_int_val command_count cmd val0 write_ok s).2.2 = val0) ∧
    (∀ (command_count state0 : Nat) (write_ok : Bool) (s : List Nat),
      (V4L2.flir_boson_get_mipi_state command_count state0 write_ok s).1 ≠ 0 →
      (V4L2.flir_boson_get_mipi_state command_count state0 write_ok s).2.2 = state0) := by
  constructor
  · intro command_count cmd val0 write_ok s hret
    by_cases hd : (SDK.flir_command_dispatcher ((command_count + 1) % 4294967296)
        cmd [] 4 write_ok s).result = R_SUCCESS
    · exact absurd (by simp [SDK.flir_boson_get_int_val, hd]) hret
    · simp [SDK.flir_boson_get_int_val, hd]
  · intro command_count state0 write_ok s hret
    by_cases hd : (V4L2.flir_command_dispatcher ((command_count + 1) % 4294967296)
        DVO_GET_MIPI_STATE [] (some 4) write_ok s).ret = 0
    · exact absurd (by simp [V4L2.flir_boson_get_mipi_state, hd]) hret
    · simp [V4L2.flir_boson_get_mipi_state, hd]

/-- C10 witness: on an empty transport stream both dispatchers fail (the
RX flush, resp. the response read, cannot complete), and the output
variables keep their prior values 99 and 7. -/
theorem C10_witness :
    (SDK.flir_boson_get_int_val 0 2 99 true []).2.2 = 99 ∧
    (V4L2.flir_boson_get_mipi_state 0 7 true []).2.2 = 7 :=
  ⟨C10_output_written_only_on_dispatch_success.1 0 2 99 true [] (by decide),
   C10_output_written_only_on_dispatch_success.2 0 7 true [] (by decide)⟩
